import Mathlib

/-!
# Verification of the monitor-precios receipt pipeline

Shallow embedding of the receipt-processing pipeline in `src/bot/`:
the Telegram intake with photo debouncing (`bot.py`), the OCR stage
worker (`worker_ocr.py`), the extraction stage worker (`worker_ia.py`)
and the persistence stage worker (`worker_db.py`).

External collaborators (Redis broker, PostgreSQL, Document AI, Ollama,
the filesystem) are modelled as explicit environment records; every
observable effect of a worker (stream appends, stream deletions, SQL
inserts, user replies) is collected in an output record so that the
theorems can speak about exactly what each stage emits.
-/

set_option maxRecDepth 10000

attribute [local semireducible] Rat.mul Rat.add Rat.sub Rat.inv Rat.ofScientific

namespace MonitorPrecios

/-! ## JSON-like values and Python primitives -/

/-- JSON-like values as the Python workers handle them after `json.loads`:
`None`, numbers, strings, lists and dicts.  Numbers are modelled exactly as
rationals (every value produced by a decimal literal is a rational). -/
inductive Value where
  | vnull : Value
  | vnum  : Rat → Value
  | vstr  : String → Value
  | vlist : List Value → Value
  | vobj  : List (String × Value) → Value

/-- Python truthiness `bool(v)` of a JSON value. -/
def Value.isTruthy : Value → Bool
  | .vnull => false
  | .vnum q => q != 0
  | .vstr s => s != ""
  | .vlist l => !l.isEmpty
  | .vobj l => !l.isEmpty

/-- Python `a or b`: the left operand when truthy, otherwise the right. -/
def pyOr (a b : Value) : Value := if a.isTruthy then a else b

/-- `dict.get(k)` on a parsed JSON object (`json.loads` keeps the last of any
duplicate keys); `none` when the key is absent. -/
def dictGet (fs : List (String × Value)) (k : String) : Option Value :=
  fs.foldl (fun acc kv => if kv.1 = k then some kv.2 else acc) none

/-- `dict.get(k, d)`. -/
def dictGetD (fs : List (String × Value)) (k : String) (d : Value) : Value :=
  (dictGet fs k).getD d

mutual
/-- Structural equality of JSON values, as SQL `=` compares the stored
duplicate-key columns with the query parameters. -/
def beqValue : Value → Value → Bool
  | .vnull, .vnull => true
  | .vnum a, .vnum b => a == b
  | .vstr a, .vstr b => a == b
  | .vlist a, .vlist b => beqValueList a b
  | .vobj a, .vobj b => beqValueObj a b
  | _, _ => false

def beqValueList : List Value → List Value → Bool
  | [], [] => true
  | x :: xs, y :: ys => beqValue x y && beqValueList xs ys
  | _, _ => false

def beqValueObj : List (String × Value) → List (String × Value) → Bool
  | [], [] => true
  | (k, v) :: xs, (l, w) :: ys => k == l && beqValue v w && beqValueObj xs ys
  | _, _ => false
end

/-- Python `str.strip()` (ASCII whitespace suffices for the receipt data). -/
def trimChars (l : List Char) : List Char :=
  ((l.dropWhile Char.isWhitespace).reverse.dropWhile Char.isWhitespace).reverse

/-- Python `str.replace(pat, rep)`: scans left to right replacing
non-overlapping occurrences.  The fuel argument is the length of the list. -/
def replaceFuel (pat rep : List Char) : Nat → List Char → List Char
  | 0, l => l
  | _ + 1, [] => []
  | fuel + 1, c :: t =>
    if !pat.isEmpty && pat.isPrefixOf (c :: t) then
      rep ++ replaceFuel pat rep fuel (List.drop (pat.length - 1) t)
    else
      c :: replaceFuel pat rep fuel t

/-- Python `str.replace` on character lists. -/
def replaceL (l pat rep : List Char) : List Char := replaceFuel pat rep l.length l

/-- Python `str.lower()` (the receipt strings are ASCII plus symbols that
`lower` leaves unchanged). -/
def lowerChars (l : List Char) : List Char := l.map Char.toLower

/-- Decimal digits to a natural number. -/
def digitsVal (l : List Char) : Nat := l.foldl (fun a c => a * 10 + (c.toNat - 48)) 0

/-- Python `float(s)` on an already-stripped string, modelled exactly over the
rationals: optional sign, decimal digits with at most one point, optional
exponent.  (`inf`, `nan` and digit underscores never arise from receipts and
are not modelled.)  `none` where `float()` raises `ValueError`. -/
def pyFloatChars? (cs0 : List Char) : Option Rat :=
  let sgncs : Int × List Char :=
    match cs0 with
    | '+' :: t => (1, t)
    | '-' :: t => (-1, t)
    | t => (1, t)
  let mex : List Char × Option (List Char) :=
    match sgncs.2.span (fun c => c != 'e' && c != 'E') with
    | (m, []) => (m, none)
    | (m, _ :: e) => (m, some e)
  let ipfp : List Char × List Char :=
    match mex.1.span (fun c => c != '.') with
    | (i, []) => (i, [])
    | (i, _ :: f) => (i, f)
  let ip := ipfp.1
  let fp := ipfp.2
  if fp.contains '.' then none
  else if !(ip.all Char.isDigit && fp.all Char.isDigit) || (ip.isEmpty && fp.isEmpty) then
    none
  else
    let m : Rat := (sgncs.1 * (digitsVal (ip ++ fp) : Int) : Int) / ((10 : Rat) ^ fp.length)
    match mex.2 with
    | none => some m
    | some e =>
      let esed : Int × List Char :=
        match e with
        | '+' :: t => (1, t)
        | '-' :: t => (-1, t)
        | t => (1, t)
      if esed.2.isEmpty || !esed.2.all Char.isDigit then none
      else some (m * (10 : Rat) ^ (esed.1 * (digitsVal esed.2 : Int)))

/-- Python `int(s)`: optional surrounding whitespace, optional sign, decimal
digits.  `none` where `int()` raises `ValueError`. -/
def pyInt? (s : String) : Option Int :=
  let cs := trimChars s.data
  let sgncs : Int × List Char :=
    match cs with
    | '+' :: t => (1, t)
    | '-' :: t => (-1, t)
    | t => (1, t)
  if sgncs.2.isEmpty || !sgncs.2.all Char.isDigit then none
  else some (sgncs.1 * (digitsVal sgncs.2 : Int))

/-- Round half to even to an integer, as Python `round` rounds an exact
decimal value. -/
def rndHalfEven (x : Rat) : Int :=
  let f := x.floor
  let r := x - (f : Rat)
  if r < 1 / 2 then f
  else if r > 1 / 2 then f + 1
  else if f % 2 = 0 then f else f + 1

/-- Python `round(x, 2)` on exact rationals. -/
def pyRound2 (x : Rat) : Rat := (rndHalfEven (x * 100) : Rat) / 100

/-- Exact decimal rendering of a rational whose denominator divides a power of
ten (the only case arising from decimal input); integers render without a
point, as Python `str` renders `int`s. -/
def decStr (q : Rat) : String :=
  match (List.range 65).find? (fun k => 10 ^ k % q.den == 0) with
  | some 0 => toString q.num
  | some k =>
    let m := q.num.natAbs * (10 ^ k / q.den)
    let ip := m / 10 ^ k
    let fpDigits := toString (m % 10 ^ k)
    let pad := String.mk (List.replicate (k - fpDigits.length) '0')
    (if q.num < 0 then "-" else "") ++ toString ip ++ "." ++ pad ++ fpDigits
  | none => toString q.num ++ "/" ++ toString q.den

mutual
/-- Python `repr` of a JSON value, as `str` renders it inside containers. -/
def pyRepr : Value → String
  | .vnull => "None"
  | .vnum q => decStr q
  | .vstr s => "\x27" ++ s ++ "\x27"
  | .vlist l => "[" ++ pyReprList l ++ "]"
  | .vobj l => "\x7b" ++ pyReprObj l ++ "\x7d"

def pyReprList : List Value → String
  | [] => ""
  | [v] => pyRepr v
  | v :: t => pyRepr v ++ ", " ++ pyReprList t

def pyReprObj : List (String × Value) → String
  | [] => ""
  | [(k, v)] => "\x27" ++ k ++ "\x27: " ++ pyRepr v
  | (k, v) :: t => "\x27" ++ k ++ "\x27: " ++ pyRepr v ++ ", " ++ pyReprObj t
end

/-- Python `str` of a JSON value (used by the f-string messages). -/
def pyStr : Value → String
  | .vstr s => s
  | v => pyRepr v

/-- Python `for x in v`: lists iterate their elements, strings their
characters, dicts their keys; other values raise `TypeError`. -/
def pyIterate : Value → Option (List Value)
  | .vlist l => some l
  | .vstr s => some (s.data.map fun c => .vstr (String.mk [c]))
  | .vobj l => some (l.map fun kv => .vstr kv.1)
  | _ => none

/-- SQL `LOWER`, as the duplicate query applies it to the store column and
parameter: lowercases strings, leaves other values alone. -/
def valLower : Value → Value
  | .vstr s => .vstr (String.mk (lowerChars s.data))
  | v => v

/-- `str` of an optional string, as an f-string renders `fields.get(...)`:
`None` when absent. -/
def pyStrOptStr : Option String → String
  | some s => s
  | none => "None"

/-! ## Persistence stage worker (`src/bot/worker_db.py`) -/

/-- `parse_float` (worker_db.py lines 51-61): `None` ↦ 0.0, numbers pass
through, strings are lowercased, have the unit suffixes `"kg"` and `"g"` and
comma separators replaced, are stripped, then parsed; any parse failure
yields 0.0.  `str()` of a list or dict starts with a bracket and never
parses as a float. -/
def parse_float (v : Value) : Rat :=
  match v with
  | .vnull => 0
  | .vnum q => q
  | .vstr s =>
    let cs := replaceL (replaceL (replaceL (lowerChars s.data) ['k', 'g'] []) ['g'] []) [','] ['.']
    (pyFloatChars? (trimChars cs)).getD 0
  | .vlist _ => 0
  | .vobj _ => 0

/-- A record appended to the `bot_responses` stream.  The optional fields
cover the different message shapes the workers build. -/
structure RespMsg where
  task_id : String
  user_id : Value
  status : String
  msg : Option String := none
  tienda : Option Value := none
  fecha : Option String := none
  total : Option Rat := none
  productos : Option Nat := none

/-- A row inserted into the `tickets` table. -/
structure TicketRow where
  id : Nat
  fecha : Value
  tienda : Value
  total_ticket : Rat
  numero_ticket : Value

/-- A row inserted into the `compras` table. -/
structure CompraRow where
  fecha : Value
  tienda : Value
  producto : String
  producto_normalizado : String
  categoria_normalizada : String
  cantidad : Rat
  precio_unitario : Rat
  total_linea : Rat

/-- A persisted receipt as the duplicate-detection query sees it. -/
structure StoredTicket where
  tienda : Value
  numero_ticket : Value
  fecha : Value

/-- External collaborators of the persistence worker. -/
structure DbEnv where
  /-- `datetime.now().date()`, rendered as its date string. -/
  today : String
  /-- `psycopg2.connect` succeeds. -/
  connectOk : Bool
  /-- rows of `tickets` visible to the duplicate query. -/
  existing : List StoredTicket
  /-- the id the receipt insert RETURNs. -/
  nextId : Nat
  /-- `json.loads` (`none` = raises); abstracts the Python `json` module. -/
  jsonLoads : String → Option Value
  /-- the local audit-copy file write succeeds. -/
  auditOk : Bool

/-- Header accessor `data.get("tienda", "Desconocida")`. -/
def dbTienda (fs : List (String × Value)) : Value :=
  dictGetD fs "tienda" (.vstr "Desconocida")

/-- Header accessor `data.get("numero_ticket")`. -/
def dbNumero (fs : List (String × Value)) : Value :=
  dictGetD fs "numero_ticket" .vnull

/-- Header accessor `data.get("fecha") or datetime.now().date()`. -/
def dbFecha (env : DbEnv) (fs : List (String × Value)) : Value :=
  pyOr (dictGetD fs "fecha" .vnull) (.vstr env.today)

/-- Lines 70-76: a non-list `productos` is re-parsed when it is a string
(malformed → `[]`), any other non-list becomes `[]`.  A string that parses
to a non-list JSON value stays that value. -/
def coerceProductos (loads : String → Option Value) : Value → Value
  | .vlist l => .vlist l
  | .vstr s => (loads s).getD (.vlist [])
  | _ => .vlist []

/-- Header accessor `data.get("productos", [])` after the list coercion. -/
def dbProductos (env : DbEnv) (fs : List (String × Value)) : Value :=
  coerceProductos env.jsonLoads (dictGetD fs "productos" (.vlist []))

/-- Line 78: `sum(parse_float(p.get("total_linea") or 0) for p in productos)`.
`none` when an element is not a dict, whose `.get` raises. -/
def dbItemsTotal (items : List Value) : Option Rat :=
  items.foldlM
    (fun acc p =>
      match p with
      | .vobj fs => some (acc + parse_float (pyOr (dictGetD fs "total_linea" .vnull) (.vnum 0)))
      | _ => none)
    (0 : Rat)

/-- The duplicate query (lines 89-93):
`LOWER(tienda) = LOWER(%s) AND numero_ticket = %s AND DATE(fecha) = %s`. -/
def dupMatchDb (t : StoredTicket) (tienda numero fecha : Value) : Bool :=
  beqValue (valLower t.tienda) (valLower tienda) &&
    beqValue t.numero_ticket numero && beqValue t.fecha fecha

/-- One iteration of the item-insert loop (lines 115-137); the inner `try`
skips a row whose `producto` or `categoria` field makes `.strip()` raise, or
whose element is not a dict. -/
def dbLineRow (fecha tienda : Value) (p : Value) : Option CompraRow :=
  match p with
  | .vobj fs =>
    match pyOr (dictGetD fs "producto" .vnull) (.vstr ""),
          pyOr (dictGetD fs "categoria" .vnull) (.vstr "otros") with
    | .vstr prod, .vstr cat =>
      let producto := String.mk (trimChars prod.data)
      let categoria := String.mk (trimChars cat.data)
      let cantidad := parse_float (pyOr (dictGetD fs "cantidad" .vnull) (.vnum 1))
      let precio_unitario := parse_float (pyOr (dictGetD fs "precio_unitario" .vnull) (.vnum 0))
      let total_linea :=
        parse_float (pyOr (dictGetD fs "total_linea" .vnull) (.vnum (cantidad * precio_unitario)))
      some { fecha, tienda, producto,
             producto_normalizado := String.mk (lowerChars producto.data),
             categoria_normalizada := String.mk (lowerChars categoria.data),
             cantidad, precio_unitario, total_linea }
    | _, _ => none
  | _ => none

/-- The duplicate warning message (lines 97-102). -/
def dupWarnMsg (task_id user_id : Option String) (tienda numero fecha : Value) : RespMsg :=
  { task_id := task_id.getD ""
    user_id := .vstr (user_id.getD "")
    status := "warning"
    msg := some ("⚠️ Ticket duplicado (" ++ pyStr tienda ++ ", " ++ pyStr numero ++ ", "
      ++ pyStr fecha ++ ")") }

/-- The success message (lines 144-152); `round(total_ticket, 2) or 0` and
`len(productos) or 0` keep the numeric value, `str(fecha) or ""` the string. -/
def okTodoMsg (task_id user_id : Option String) (tienda fecha : Value) (total : Rat)
    (nprod : Nat) : RespMsg :=
  { task_id := task_id.getD ""
    user_id := .vstr (user_id.getD "")
    status := "ok-todo"
    tienda := some (pyOr tienda (.vstr ""))
    fecha := some (pyStr fecha)
    total := some (pyRound2 total)
    productos := some nprod }

/-- Everything observable `save_ticket_to_db` did. -/
structure SaveOut where
  responses : List RespMsg
  tickets : List TicketRow
  compras : List CompraRow
  committed : Bool
  /-- the blanket `except` at lines 162-163 fired: logged, nothing emitted. -/
  caught : Bool
  auditWritten : Bool

/-- The silent outcome of the blanket `except` (lines 162-163): whatever had
already been emitted stays; here nothing had been. -/
def saveCaughtOut : SaveOut :=
  { responses := [], tickets := [], compras := [], committed := false,
    caught := true, auditWritten := false }

/-- `save_ticket_to_db` from `worker_db.py` (lines 63-163).  `data` is the
decoded JSON value of the task's `resultado` field; the blanket
`try`/`except` turns every internal exception into a logged no-op, so the
function always returns. -/
def save_ticket_to_db (env : DbEnv) (data : Value) (task_id user_id : Option String) : SaveOut :=
  match data with
  | .vobj fs =>
    let tienda := dbTienda fs
    let numero := dbNumero fs
    let fecha := dbFecha env fs
    match pyIterate (dbProductos env fs) with
    | none => saveCaughtOut
    | some items =>
      match dbItemsTotal items with
      | none => saveCaughtOut
      | some total_ticket =>
        if !env.connectOk then saveCaughtOut
        else if numero.isTruthy && env.existing.any (fun t => dupMatchDb t tienda numero fecha) then
          { responses := [dupWarnMsg task_id user_id tienda numero fecha],
            tickets := [], compras := [], committed := false, caught := false,
            auditWritten := false }
        else
          { responses := [okTodoMsg task_id user_id tienda fecha total_ticket items.length],
            tickets := [{ id := env.nextId, fecha, tienda, total_ticket, numero_ticket := numero }],
            compras := items.filterMap (dbLineRow fecha tienda),
            committed := true,
            caught := !env.auditOk,
            auditWritten := env.auditOk }
  | _ => saveCaughtOut

/-- Fields of a `db_tasks` stream record. -/
structure DbFields where
  task_id : Option String
  user_id : Option String
  resultado : Option String

/-- The JSON-decode-error message of the worker loop (lines 197-202); note
the capitalised status string `"Error"`. -/
def dbJsonErrMsg (task_id user_id : Option String) (raw : String) : RespMsg :=
  { task_id := task_id.getD ""
    user_id := .vstr (user_id.getD "")
    status := "Error"
    msg := some ("❌ JSON inválido en tarea DB " ++ pyStrOptStr task_id ++ ": "
      ++ String.mk (raw.data.take 100)) }

/-- Everything observable one record of the `worker_db` loop body did
(lines 184-216).  `worker_db` never calls `xdel`, so `deleted` is the list
of deletions it performed: none. -/
structure DbStepOut where
  responses : List RespMsg
  tickets : List TicketRow
  compras : List CompraRow
  deleted : List String
  newLastId : String
  saveCaught : Bool

/-- Per-record body of `worker_db` (lines 184-216): decode `resultado`,
save; a decode failure emits the `"Error"` message; `last_id = msg_id` runs
on every path; no `xdel` ever happens. -/
def worker_db_step (env : DbEnv) (msgId : String) (f : DbFields) : DbStepOut :=
  let raw := f.resultado.getD "\x7b\x7d"
  match env.jsonLoads raw with
  | none =>
    { responses := [dbJsonErrMsg f.task_id f.user_id raw],
      tickets := [], compras := [], deleted := [], newLastId := msgId, saveCaught := false }
  | some data =>
    let out := save_ticket_to_db env data f.task_id f.user_id
    { responses := out.responses, tickets := out.tickets, compras := out.compras,
      deleted := [], newLastId := msgId, saveCaught := out.caught }

/-- Outcome of one blocking `xread` call. -/
inductive ReadOutcome (F : Type) where
  | err : ReadOutcome F
  | empty : ReadOutcome F
  | record : String → F → ReadOutcome F

/-- What one iteration of a worker's `while True` loop did. -/
structure LoopIterOut (S : Type) where
  terminated : Bool
  sleptSeconds : Nat
  step : Option S

/-- One iteration of the `worker_db` loop (lines 176-220): the outer
`except` catches a failing read, logs and sleeps 3 seconds; the loop never
terminates on its own. -/
def worker_db_iter (env : DbEnv) : ReadOutcome DbFields → LoopIterOut DbStepOut
  | .err => { terminated := false, sleptSeconds := 3, step := none }
  | .empty => { terminated := false, sleptSeconds := 0, step := none }
  | .record msgId f =>
    { terminated := false, sleptSeconds := 0, step := some (worker_db_step env msgId f) }

/-! ## Extraction stage worker (`src/bot/worker_ia.py`) -/

/-- Python truthiness of an optional string field: `None` and `""` are
falsy. -/
def optStrTruthy : Option String → Bool
  | none => false
  | some s => s != ""

/-- A short status message `{task_id, user_id, status, msg}` as the ia and
db workers build them. -/
def simpleMsg (task_id user_id : Option String) (status msgText : String) : RespMsg :=
  { task_id := task_id.getD ""
    user_id := .vstr (user_id.getD "")
    status := status
    msg := some msgText }

/-- Fields of an `ia_tasks` stream record. -/
structure IaFields where
  task_id : Option String
  user_id : Option String
  ocr_text : Option String

/-- A record appended to the `db_tasks` stream (worker_ia.py lines
160-165).  The structured result travels as `json.dumps(resultado)` and is
re-parsed by the persistence worker; the model carries the parsed value. -/
structure DbTask where
  task_id : Option String
  user_id : Option String
  resultado : List (String × Value)

/-- External collaborators of the extraction worker. -/
structure IaEnv where
  /-- `llamar_a_llama3` (lines 48-94): prompt fill, streamed Ollama call,
  brace-substring parse.  The function catches every exception and always
  returns a dict — `{}` (falsy) on any failure — so it is a total oracle. -/
  llama : String → List (String × Value)
  /-- the audit cache write (lines 155-157) succeeds. -/
  cacheOk : Bool

/-- Everything observable one record of the `worker_ia` loop body did. -/
structure IaStepOut where
  responses : List RespMsg
  dbTasks : List DbTask
  deleted : List String
  llmCalls : List String
  newLastId : String
  /-- an exception escaped to the outer loop handler. -/
  escaped : Bool

/-- Per-record body of `worker_ia` (lines 115-170).  A missing or empty
`ocr_text` deletes the record silently; an empty extraction result deletes
it and emits the `"Error"` message; on success the ok message is emitted
first, then the audit copy is written, the `db_tasks` record appended, the
record deleted and the cursor advanced. -/
def worker_ia_step (env : IaEnv) (lastId msgId : String) (f : IaFields) : IaStepOut :=
  if !optStrTruthy f.ocr_text then
    { responses := [], dbTasks := [], deleted := [msgId], llmCalls := [],
      newLastId := lastId, escaped := false }
  else
    let text := f.ocr_text.getD ""
    let res := env.llama text
    if res.isEmpty then
      { responses := [simpleMsg f.task_id f.user_id "Error" "❌ IA no generó resultado."],
        dbTasks := [], deleted := [msgId], llmCalls := [text],
        newLastId := lastId, escaped := false }
    else if !env.cacheOk then
      { responses := [simpleMsg f.task_id f.user_id "ok" "✅🧠 Procesado IA con llama correcto."],
        dbTasks := [], deleted := [], llmCalls := [text],
        newLastId := lastId, escaped := true }
    else
      { responses := [simpleMsg f.task_id f.user_id "ok" "✅🧠 Procesado IA con llama correcto."],
        dbTasks := [{ task_id := f.task_id, user_id := f.user_id, resultado := res }],
        deleted := [msgId], llmCalls := [text],
        newLastId := msgId, escaped := false }

/-- One iteration of the `worker_ia` loop (lines 106-174): the outer
`except` catches a failing read or an escaped per-record exception, logs
and sleeps 3 seconds; the loop never terminates on its own. -/
def worker_ia_iter (env : IaEnv) (lastId : String) : ReadOutcome IaFields → LoopIterOut IaStepOut
  | .err => { terminated := false, sleptSeconds := 3, step := none }
  | .empty => { terminated := false, sleptSeconds := 0, step := none }
  | .record msgId f =>
    let s := worker_ia_step env lastId msgId f
    { terminated := false, sleptSeconds := if s.escaped then 3 else 0, step := some s }

/-! ## OCR stage worker (`src/bot/worker_ocr.py`) -/

/-- Fields of an `ocr_tasks` stream record. -/
structure OcrFields where
  task_id : Option String
  user_id : Option String
  photo_paths : Option String

/-- External collaborators of the OCR worker. -/
structure OcrEnv where
  /-- `json.loads` on the photo-path field (`none` = raises). -/
  jsonLoads : String → Option Value
  /-- reading one photo file and running Document AI on it; `none` models an
  exception from `open` or `process_document`, `some t` the text with
  `doc.text or ""` already applied. -/
  ocrPhoto : String → Option String

/-- A record appended to the `ia_tasks` stream (lines 72-76). -/
structure IaTask where
  task_id : Option String
  user_id : Int
  ocr_text : String

/-- Everything observable one record of the `worker_ocr` loop body did. -/
structure OcrStepOut where
  responses : List RespMsg
  iaTasks : List IaTask
  deleted : List String
  filesRemoved : List String
  /-- the per-task `except` fired: logged, the record stays in the stream. -/
  caught : Bool

/-- Result of the per-record body: an uncaught exception kills the loop. -/
inductive OcrStepResult where
  | crashed : OcrStepResult
  | done : OcrStepOut → OcrStepResult

/-- The OCR loop over the photo paths (lines 62-70): each text is appended
with a newline; `none` when a photo raises (or a path is not a string). -/
def ocrCombine (env : OcrEnv) : List Value → Option String
  | [] => some ""
  | p :: t =>
    match p with
    | .vstr path =>
      match env.ocrPhoto path with
      | none => none
      | some txt => (ocrCombine env t).map (fun rest => txt ++ "\n" ++ rest)
    | _ => none

/-- The ok message of the OCR worker (lines 78-84); its `user_id` is the
parsed int, so `user_id or ""` is the int unless it is zero. -/
def ocrOkMsg (task_id : Option String) (uid : Int) : RespMsg :=
  { task_id := task_id.getD ""
    user_id := if uid != 0 then .vnum (uid : Rat) else .vstr ""
    status := "ok"
    msg := some "✅🧾 OCR imagen procesada correctamente." }

/-- Per-record body of `worker_ocr` (lines 52-100).  `int(...)` on
`user_id` and `json.loads` on `photo_paths` run before the `try` block,
so their exceptions are uncaught and kill the loop.  Inside the `try` a
failure is logged and the record is left undeleted; `worker_ocr` keeps no
cursor (every read starts from id `"0"`), so that record is read again.
`os.remove` is modelled as always succeeding (`FileNotFoundError` is
explicitly passed in the source). -/
def worker_ocr_step (env : OcrEnv) (msgId : String) (f : OcrFields) : OcrStepResult :=
  match pyInt? (f.user_id.getD "0") with
  | none => .crashed
  | some uid =>
    match env.jsonLoads (f.photo_paths.getD "[]") with
    | none => .crashed
    | some pathsVal =>
      match pyIterate pathsVal with
      | none =>
        .done { responses := [], iaTasks := [], deleted := [], filesRemoved := [], caught := true }
      | some paths =>
        match ocrCombine env paths with
        | none =>
          .done { responses := [], iaTasks := [], deleted := [], filesRemoved := [], caught := true }
        | some combined =>
          .done { responses := [ocrOkMsg f.task_id uid],
                  iaTasks := [{ task_id := f.task_id, user_id := uid, ocr_text := combined }],
                  deleted := [msgId],
                  filesRemoved := paths.filterMap (fun p =>
                    match p with | .vstr s => some s | _ => none),
                  caught := false }

/-- The fixed read position of `worker_ocr` (line 47): every `xread` starts
from stream id `"0"`; there is no cursor variable at all. -/
def worker_ocr_cursor : String := "0"

/-- One iteration of the `worker_ocr` loop (lines 46-100): there is no
`try` around `xread` and the pre-`try` field parsing can raise, so either
terminates the loop; there is no backoff. -/
def worker_ocr_iter (env : OcrEnv) : ReadOutcome OcrFields → LoopIterOut OcrStepOut
  | .err => { terminated := true, sleptSeconds := 0, step := none }
  | .empty => { terminated := false, sleptSeconds := 0, step := none }
  | .record msgId f =>
    match worker_ocr_step env msgId f with
    | .crashed => { terminated := true, sleptSeconds := 0, step := none }
    | .done out => { terminated := false, sleptSeconds := 0, step := some out }

/-! ## Telegram intake with inline pipeline (`src/bot/bot.py`) -/

/-- `limpiar_numero` (bot.py lines 191-200): numbers pass through, falsy
values give 0.0, strings lose `"€"` and comma separators, are stripped and
parsed (failure → 0.0); `str()` of a truthy list or dict never parses. -/
def limpiar_numero (v : Value) : Rat :=
  match v with
  | .vnum q => q
  | .vstr s =>
    if s == "" then 0
    else (pyFloatChars? (trimChars (replaceL (replaceL s.data ['€'] []) [','] ['.']))).getD 0
  | _ => 0

/-- Python `f"{x:.2f}"` on an exact rational. -/
def fmt2f (q : Rat) : String :=
  let n := rndHalfEven (q * 100)
  let a := n.natAbs
  let frac := a % 100
  (if n < 0 then "-" else "") ++ toString (a / 100) ++ "."
    ++ (if frac < 10 then "0" else "") ++ toString frac

/-- `p[k] = v` on a dict. -/
def dictSet (fs : List (String × Value)) (k : String) (v : Value) : List (String × Value) :=
  if (dictGet fs k).isSome then fs.map (fun kv => if kv.1 = k then (k, v) else kv)
  else fs ++ [(k, v)]

/-- One iteration of the item-insert loop in bot.py's `save_ticket_to_db`
(lines 202-228): `cantidad` defaults to 1 when it cleans to 0; a zero
`total_linea` with a positive `precio_unitario` is derived as
`round(cantidad * precio_unitario, 2)`.  The inner `try` skips a row whose
`producto` or `categoria` field makes `.strip()` raise, or whose element is
not a dict. -/
def botLineRow (fecha tienda : Value) (p : Value) : Option CompraRow :=
  match p with
  | .vobj fs =>
    match pyOr (dictGetD fs "producto" .vnull) (.vstr ""),
          pyOr (dictGetD fs "categoria" .vnull) (.vstr "otros") with
    | .vstr prod, .vstr cat =>
      let producto := String.mk (trimChars prod.data)
      let categoria := String.mk (trimChars cat.data)
      let c0 := limpiar_numero (dictGetD fs "cantidad" .vnull)
      let cantidad := if c0 = 0 then 1 else c0
      let precio_unitario := limpiar_numero (dictGetD fs "precio_unitario" .vnull)
      let t0 := limpiar_numero (dictGetD fs "total_linea" .vnull)
      let total_linea :=
        if t0 = 0 ∧ precio_unitario > 0 then pyRound2 (cantidad * precio_unitario) else t0
      some { fecha, tienda, producto,
             producto_normalizado := String.mk (lowerChars producto.data),
             categoria_normalizada := String.mk (lowerChars categoria.data),
             cantidad, precio_unitario, total_linea }
    | _, _ => none
  | _ => none

/-- Datastore environment of the monolithic bot. -/
structure BotDbEnv where
  today : String
  connectOk : Bool
  /-- rows of `tickets` with their ids, as the duplicate query sees them. -/
  existing : List (Nat × StoredTicket)
  nextId : Nat

/-- The dict bot.py's `save_ticket_to_db` returns on a normal exit. -/
structure BotSaveResult where
  ticket_id : Nat
  duplicado : Bool

/-- Observable outcome of bot.py's `save_ticket_to_db`; `result = none`
models the blanket `except` returning `None`. -/
structure BotSaveOut where
  result : Option BotSaveResult
  tickets : List TicketRow
  compras : List CompraRow

/-- bot.py `save_ticket_to_db` (lines 158-238).  Unlike the persistence
worker, the duplicate query here compares the store name case-sensitively
(`WHERE tienda = %s`, no `LOWER`). -/
def bot_save_ticket_to_db (env : BotDbEnv) (tienda : Value) (total_ticket : Rat)
    (productos : List Value) (numero_ticket fecha0 : Value) : BotSaveOut :=
  let fecha := match fecha0 with
    | .vnull => Value.vstr env.today
    | v => v
  if !env.connectOk then { result := none, tickets := [], compras := [] }
  else
    match (if numero_ticket.isTruthy then
        env.existing.find? (fun t =>
          beqValue t.2.tienda tienda && beqValue t.2.numero_ticket numero_ticket
            && beqValue t.2.fecha fecha)
      else none) with
    | some t =>
      { result := some { ticket_id := t.1, duplicado := true }, tickets := [], compras := [] }
    | none =>
      { result := some { ticket_id := env.nextId, duplicado := false },
        tickets := [{ id := env.nextId, fecha, tienda, total_ticket, numero_ticket }],
        compras := productos.filterMap (botLineRow fecha tienda) }

/-- The dict `llamar_a_llama3` returns (bot.py lines 284-289): always
exactly these four keys, with the documented defaults on any failure. -/
structure BotLlama where
  tienda : Value
  numero_ticket : Value
  fecha : Value
  productos : Value

/-- External collaborators of the bot process. -/
structure BotEnv where
  /-- reading one photo file and running Document AI (`none` = raises). -/
  ocr : String → Option String
  /-- `llamar_a_llama3`: total, catches every exception internally. -/
  llama : String → BotLlama
  db : BotDbEnv

/-- The OCR loop of `process_ticket_photos` (lines 99-105). -/
def ocrAllBot (env : BotEnv) : List String → Option String
  | [] => some ""
  | p :: t =>
    match env.ocr p with
    | none => none
    | some txt => (ocrAllBot env t).map (fun rest => txt ++ "\n" ++ rest)

/-- One item of the normalisation loop (lines 123-134), which mutates the
item in place: a string `total_linea` or `precio_unitario` loses `"€"` and
commas and is parsed (`ValueError` → 0.0), non-strings stay as they are,
an absent key is set to its default 0, and a falsy `cantidad` becomes 1.
`none` when the element is not a dict (`.get` raises). -/
def botPreNorm (p : Value) : Option Value :=
  match p with
  | .vobj fs =>
    let norm1 : Value → Value := fun v =>
      match v with
      | .vstr s =>
        .vnum ((pyFloatChars? (trimChars (replaceL (replaceL s.data ['€'] []) [','] ['.']))).getD 0)
      | v => v
    let fs1 := dictSet fs "total_linea" (norm1 (dictGetD fs "total_linea" (.vnum 0)))
    let fs2 := dictSet fs1 "precio_unitario" (norm1 (dictGetD fs1 "precio_unitario" (.vnum 0)))
    let fs3 :=
      if (dictGetD fs2 "cantidad" .vnull).isTruthy then fs2
      else dictSet fs2 "cantidad" (.vnum 1)
    some (.vobj fs3)
  | _ => none

/-- Line 136: `sum([p.get("total_linea", 0) or 0 for p in productos])` over
the already-normalised items; `none` when an element is not a dict or a
truthy non-numeric value reaches `sum` (`TypeError`). -/
def botTotal (items : List Value) : Option Rat :=
  items.foldlM
    (fun acc p =>
      match p with
      | .vobj fs =>
        match pyOr (dictGetD fs "total_linea" (.vnum 0)) (.vnum 0) with
        | .vnum q => some (acc + q)
        | _ => none
      | _ => none)
    (0 : Rat)

/-- Observable effects of the bot process. -/
structure BotEffects where
  replies : List String
  /-- tasks appended to the `ocr_tasks` stream: `bot.py` contains no stream
  append at all, so no constructor of the model ever fills this. -/
  ocrEnqueued : List (List String)
  /-- photo batches that entered the inline pipeline (the non-empty branch
  of `process_ticket_photos`). -/
  pipelineRuns : List (List String)
  filesRemoved : List String

def noEffects : BotEffects :=
  { replies := [], ocrEnqueued := [], pipelineRuns := [], filesRemoved := [] }

def BotEffects.append (a b : BotEffects) : BotEffects :=
  { replies := a.replies ++ b.replies
    ocrEnqueued := a.ocrEnqueued ++ b.ocrEnqueued
    pipelineRuns := a.pipelineRuns ++ b.pipelineRuns
    filesRemoved := a.filesRemoved ++ b.filesRemoved }

/-- The duplicate reply (lines 140-143); `fecha` here is the raw value from
the extraction, not the defaulted one the save used. -/
def dupReplyText (tienda numero fecha : Value) : String :=
  "⚠️ Ticket duplicado detectado.\n🏪 Tienda: " ++ pyStr tienda
    ++ "\n🧾 Nº: " ++ pyStr (pyOr numero (.vstr "N/D"))
    ++ "\n📅 Fecha: " ++ pyStr fecha
    ++ "\n➡️ No se ha guardado nuevamente."

/-- The success reply (lines 145-148). -/
def okReplyText (nprod : Nat) (tienda numero fecha : Value) (total : Rat) : String :=
  "✅ Ticket procesado correctamente (" ++ toString nprod ++ " productos).\n🏪 "
    ++ pyStr tienda ++ "\n🧾 " ++ pyStr (pyOr numero (.vstr "N/D"))
    ++ "\n📅 " ++ pyStr fecha ++ "\n💰 " ++ fmt2f total ++ " €"

/-- `process_ticket_photos` (bot.py lines 89-152), acting on the session's
photo list.  Returns the new photo list and the effects; an exception
anywhere aborts the handler coroutine, keeping the effects emitted so far
and leaving the photo list uncleared. -/
def process_ticket_photos (env : BotEnv) (photos : List String) : List String × BotEffects :=
  if photos.isEmpty then
    (photos, { noEffects with replies := ["⚠️ No se detectaron fotos."] })
  else
    let eff0 : BotEffects :=
      { noEffects with
        replies := ["🔍 Procesando " ++ toString photos.length ++ " fotos del ticket..."]
        pipelineRuns := [photos] }
    match ocrAllBot env photos with
    | none => (photos, eff0)
    | some combined =>
      let r := env.llama combined
      if !r.productos.isTruthy then
        ([], { eff0 with
          replies := eff0.replies ++ ["⚠️ No se pudieron extraer productos del ticket."] })
      else
        match pyIterate r.productos with
        | none => (photos, eff0)
        | some items0 =>
          match items0.mapM botPreNorm with
          | none => (photos, eff0)
          | some items =>
            match botTotal items with
            | none => (photos, eff0)
            | some total =>
              let sv := bot_save_ticket_to_db env.db r.tienda total items r.numero_ticket r.fecha
              match sv.result with
              | none => (photos, eff0)
              | some res =>
                let reply :=
                  if res.duplicado then dupReplyText r.tienda r.numero_ticket r.fecha
                  else okReplyText items0.length r.tienda r.numero_ticket r.fecha total
                ([], { eff0 with
                  replies := eff0.replies ++ [reply]
                  filesRemoved := photos })

/-- Per-session intake state of the debounced photo accumulation:
`context.user_data["ticket_photos"]`, the pending `photo_timer` task (by
generation number) and a generation counter identifying timer tasks. -/
structure BotState where
  photos : List String
  timer : Option Nat
  nextGen : Nat

def initBotState : BotState := { photos := [], timer := none, nextGen := 0 }

/-- Events of one user session. -/
inductive BotEvent where
  /-- a photo message arrives (`handle_photo`); the payload is the stored
  temp-file path. -/
  | photo : String → BotEvent
  /-- the `/cancel` command (`cancel_ticket`). -/
  | cancel : BotEvent
  /-- the 10-second sleep of the timer task of generation `g` ends. -/
  | timerFire : Nat → BotEvent

/-- `handle_photo` (lines 65-87): unconditionally cancel any pending timer,
append the photo, acknowledge with the running count, arm a fresh timer. -/
def handle_photo (st : BotState) (path : String) : BotState × BotEffects :=
  let photos := st.photos ++ [path]
  ({ photos, timer := some st.nextGen, nextGen := st.nextGen + 1 },
   { noEffects with
     replies := ["📸 Foto " ++ toString photos.length ++ " recibida. Esperando más..."] })

/-- `cancel_ticket` (lines 303-306): clears the photo list and replies; the
pending `photo_timer` task is left untouched. -/
def cancel_ticket (st : BotState) : BotState × BotEffects :=
  ({ st with photos := [] },
   { noEffects with
     replies := ["❌ Ticket cancelado. Puedes empezar uno nuevo enviando una foto."] })

/-- A debounce timer of generation `g` fires: only the still-pending timer
task runs (`asyncio` cancellation keeps a cancelled task from resuming);
it then runs `process_ticket_photos`. -/
def timer_fire (env : BotEnv) (st : BotState) (g : Nat) : BotState × BotEffects :=
  if st.timer = some g then
    let pr := process_ticket_photos env st.photos
    ({ st with photos := pr.1, timer := none }, pr.2)
  else (st, noEffects)

/-- One session event. -/
def bot_step (env : BotEnv) (st : BotState) : BotEvent → BotState × BotEffects
  | .photo p => handle_photo st p
  | .cancel => cancel_ticket st
  | .timerFire g => timer_fire env st g

/-- A sequence of session events, with accumulated effects. -/
def bot_run (env : BotEnv) (st : BotState) : List BotEvent → BotState × BotEffects
  | [] => (st, noEffects)
  | e :: t =>
    let r := bot_step env st e
    let rest := bot_run env r.1 t
    (rest.1, r.2.append rest.2)

/-! ## Concrete fixtures used by the witnesses and counterexamples -/

/-- A datastore already holding the receipt (LIDL, 42, 2024-04-30). -/
def c1Env : DbEnv :=
  { today := "2024-05-01", connectOk := true,
    existing := [{ tienda := .vstr "LIDL", numero_ticket := .vstr "42",
                   fecha := .vstr "2024-04-30" }],
    nextId := 7, jsonLoads := fun _ => none, auditOk := true }

/-- A structured result matching that receipt, with a differently-cased
store name. -/
def c1Fields : List (String × Value) :=
  [("tienda", .vstr "lidl"), ("numero_ticket", .vstr "42"),
   ("fecha", .vstr "2024-04-30"), ("productos", .vlist [])]

def c2IaEnv : IaEnv := { llama := fun _ => [("tienda", .vstr "x")], cacheOk := true }

def c2DbEnv : DbEnv :=
  { today := "2024-05-01", connectOk := true, existing := [], nextId := 2,
    jsonLoads := fun _ => some (.vobj []), auditOk := true }

def c2OcrEnv : OcrEnv :=
  { jsonLoads := fun _ => some (.vlist [.vstr "p"]), ocrPhoto := fun _ => some "x" }

def c2OcrFields : OcrFields :=
  { task_id := some "t3", user_id := some "1", photo_paths := some "irrelevant" }

/-- The step outcome of `c2OcrFields` under `c2OcrEnv`. -/
def c2OcrOut : OcrStepOut :=
  { responses := [ocrOkMsg (some "t3") 1],
    iaTasks := [{ task_id := some "t3", user_id := 1, ocr_text := "x\n" }],
    deleted := ["3-3"], filesRemoved := ["p"], caught := false }

def c4Env : DbEnv :=
  { today := "2024-05-01", connectOk := false, existing := [], nextId := 1,
    jsonLoads := fun _ => none, auditOk := true }

/-- An OCR environment whose `json.loads` raises on any input. -/
def c9OcrEnv : OcrEnv := { jsonLoads := fun _ => none, ocrPhoto := fun _ => some "" }

/-- An item whose `total_linea` is absent: quantity 2 at unit price 3. -/
def c6Item : Value :=
  .vobj [("producto", .vstr "pan"), ("cantidad", .vnum 2), ("precio_unitario", .vnum 3)]

def c6Fields : List (String × Value) := [("productos", .vlist [c6Item])]

def c6Env : DbEnv :=
  { today := "2024-05-01", connectOk := true, existing := [], nextId := 5,
    jsonLoads := fun _ => none, auditOk := true }

/-- A persistence-worker item whose `total_linea` field is absent. -/
def c7DbItem : List (String × Value) :=
  [("producto", .vstr "x"), ("cantidad", .vnum 2), ("precio_unitario", .vstr "2,5")]

/-- A bot-path item with zero `total_linea` and positive unit price. -/
def c7BotItem : List (String × Value) :=
  [("producto", .vstr "y"), ("cantidad", .vnum 2), ("precio_unitario", .vnum 3),
   ("total_linea", .vnum 0)]

/-- A bot environment whose pipeline succeeds on any batch. -/
def c3Env : BotEnv :=
  { ocr := fun _ => some "texto"
    llama := fun _ =>
      { tienda := .vstr "Lidl", numero_ticket := .vnull, fecha := .vnull,
        productos := .vlist [.vobj [("producto", .vstr "pan"), ("total_linea", .vnum 2)]] }
    db := { today := "2024-05-01", connectOk := true, existing := [], nextId := 1 } }

/-! ## General lemmas about the models -/

theorem botEffects_append_ocrEnqueued (a b : BotEffects) :
    (a.append b).ocrEnqueued = a.ocrEnqueued ++ b.ocrEnqueued := rfl

/-- No event handler of `bot.py` appends to the `ocr_tasks` stream. -/
theorem bot_step_no_ocrEnqueued (env : BotEnv) (st : BotState) (e : BotEvent) :
    (bot_step env st e).2.ocrEnqueued = [] := by
  cases e with
  | photo p => rfl
  | cancel => rfl
  | timerFire g =>
    show (timer_fire env st g).2.ocrEnqueued = []
    unfold timer_fire
    split
    · unfold process_ticket_photos
      split
      · rfl
      · cases hocr : ocrAllBot env st.photos with
        | none => rfl
        | some combined =>
          simp only [hocr]
          split
          · rfl
          · cases hit : pyIterate (env.llama combined).productos with
            | none => rfl
            | some items0 =>
              simp only [hit]
              cases hmn : items0.mapM botPreNorm with
              | none => rfl
              | some items =>
                simp only [hmn]
                cases htot : botTotal items with
                | none => rfl
                | some total =>
                  simp only [htot]
                  cases hsv : (bot_save_ticket_to_db env.db (env.llama combined).tienda total
                      items (env.llama combined).numero_ticket (env.llama combined).fecha).result with
                  | none => rfl
                  | some res => simp only [hsv]; rfl
    · rfl

/-- No run of the bot session ever appends to the `ocr_tasks` stream. -/
theorem bot_run_no_ocrEnqueued (env : BotEnv) (st : BotState) (evs : List BotEvent) :
    (bot_run env st evs).2.ocrEnqueued = [] := by
  induction evs generalizing st with
  | nil => rfl
  | cons e t ih =>
    show ((bot_step env st e).2.append (bot_run env (bot_step env st e).1 t).2).ocrEnqueued = []
    rw [botEffects_append_ocrEnqueued, bot_step_no_ocrEnqueued, ih]
    rfl

theorem botEffects_append_noEffects_left (b : BotEffects) : noEffects.append b = b := rfl

theorem botEffects_append_noEffects_right (a : BotEffects) : a.append noEffects = a := by
  simp [BotEffects.append, noEffects]

theorem botEffects_append_assoc (a b c : BotEffects) :
    (a.append b).append c = a.append (b.append c) := by
  simp [BotEffects.append]

/-- Running a concatenation of event lists composes state and effects. -/
theorem bot_run_append (env : BotEnv) (st : BotState) (l1 l2 : List BotEvent) :
    bot_run env st (l1 ++ l2) =
      ((bot_run env (bot_run env st l1).1 l2).1,
       (bot_run env st l1).2.append (bot_run env (bot_run env st l1).1 l2).2) := by
  induction l1 generalizing st with
  | nil => rfl
  | cons e t ih =>
    show ((bot_run env (bot_step env st e).1 (t ++ l2)).1,
          (bot_step env st e).2.append (bot_run env (bot_step env st e).1 (t ++ l2)).2) = _
    rw [ih]
    exact congrArg _ (botEffects_append_assoc _ _ _).symm

/-- Effect of a photo burst on the session state: photos appended in order,
the timer of the last photo pending, and no pipeline run. -/
theorem bot_run_photos (env : BotEnv) (st : BotState) (b : List String) :
    (bot_run env st (b.map .photo)).1 =
      { photos := st.photos ++ b
        timer := if b.isEmpty then st.timer else some (st.nextGen + b.length - 1)
        nextGen := st.nextGen + b.length } ∧
    (bot_run env st (b.map .photo)).2.pipelineRuns = [] := by
  induction b generalizing st with
  | nil => simp [bot_run, noEffects]
  | cons p t ih =>
    refine ⟨?_, ?_⟩
    · show (bot_run env (handle_photo st p).1 (t.map .photo)).1 = _
      rw [(ih (handle_photo st p).1).1]
      unfold handle_photo
      cases t with
      | nil => simp
      | cons q u => simp +arith [List.isEmpty]
    · exact (ih (handle_photo st p).1).2

/-- Every non-empty invocation of the inline pipeline records exactly its
batch as the single pipeline run. -/
theorem process_nonempty_pipelineRuns (env : BotEnv) (b : List String) (hb : ¬b.isEmpty) :
    (process_ticket_photos env b).2.pipelineRuns = [b] := by
  unfold process_ticket_photos
  rw [if_neg (by simpa using hb)]
  cases hocr : ocrAllBot env b with
  | none => rfl
  | some combined =>
    simp only [hocr]
    split
    · rfl
    · cases hit : pyIterate (env.llama combined).productos with
      | none => rfl
      | some items0 =>
        simp only [hit]
        cases hmn : items0.mapM botPreNorm with
        | none => rfl
        | some items =>
          simp only [hmn]
          cases htot : botTotal items with
          | none => rfl
          | some total =>
            simp only [htot]
            cases hsv : (bot_save_ticket_to_db env.db (env.llama combined).tienda total
                items (env.llama combined).numero_ticket (env.llama combined).fecha).result with
            | none => rfl
            | some res => simp only [hsv]

/-! ## Claim theorems -/

/-- **C10**: an extraction-stream task whose `ocr_text` field is present but
equal to the empty string is handled exactly like a task missing the field
entirely: an identical step outcome, in which the record is deleted from the
stream, no LLM call is made, and no ResponseMessage is emitted. -/
theorem C10_empty_ocr_text_like_missing (env : IaEnv) (lastId msgId : String)
    (tid uid : Option String) :
    worker_ia_step env lastId msgId { task_id := tid, user_id := uid, ocr_text := some "" }
        = worker_ia_step env lastId msgId { task_id := tid, user_id := uid, ocr_text := none } ∧
    (worker_ia_step env lastId msgId
        { task_id := tid, user_id := uid, ocr_text := some "" }).deleted = [msgId] ∧
    (worker_ia_step env lastId msgId
        { task_id := tid, user_id := uid, ocr_text := some "" }).llmCalls = [] ∧
    (worker_ia_step env lastId msgId
        { task_id := tid, user_id := uid, ocr_text := some "" }).responses = [] :=
  ⟨rfl, rfl, rfl, rfl⟩

/-- **C2** counterexample: a `db_tasks` record whose processing fully
succeeds (the `ok-todo` response is emitted, nothing was caught) is
nevertheless not deleted from its stream — `worker_db` performs no `xdel`,
refuting that every stage acknowledges by deletion. -/
theorem C2_counterexample_db_record_not_deleted :
    let s := worker_db_step
      { today := "2024-05-01", connectOk := true, existing := [], nextId := 1,
        jsonLoads := fun _ => some (.vobj []), auditOk := true }
      "1-1" { task_id := some "t", user_id := some "u", resultado := some "x" }
    s.deleted = [] ∧ s.saveCaught = false ∧ s.responses.map RespMsg.status = ["ok-todo"] :=
  ⟨rfl, rfl, rfl⟩

/-- Inversion of the OCR per-record body: a normally-returning record
either was caught (and stays in the stream) or succeeded (and is the one
record deleted). -/
theorem worker_ocr_step_done_cases (env : OcrEnv) (msgId : String) (f : OcrFields)
    (out : OcrStepOut) (h : worker_ocr_step env msgId f = .done out) :
    (out.caught = true ∧ out.deleted = []) ∨ (out.caught = false ∧ out.deleted = [msgId]) := by
  unfold worker_ocr_step at h
  split at h
  · exact OcrStepResult.noConfusion h
  · split at h
    · exact OcrStepResult.noConfusion h
    · split at h
      · injection h with h2
        subst h2
        exact .inl ⟨rfl, rfl⟩
      · split at h
        · injection h with h2
          subst h2
          exact .inl ⟨rfl, rfl⟩
        · injection h with h2
          subst h2
          exact .inr ⟨rfl, rfl⟩

/-- **C2** as amended: acknowledgment differs per worker.  The extraction
worker deletes every record it reads on all three of its outcome paths
(provided its own audit write does not raise); the persistence worker
deletes nothing but advances its cursor past every record, failed or not;
the OCR worker deletes exactly the records whose processing succeeded — a
caught per-task failure leaves the record in the stream. -/
theorem C2_amended_per_worker_acknowledgment (iaEnv : IaEnv) (dbEnv : DbEnv) (ocrEnv : OcrEnv)
    (lastId msgId msgId2 msgId3 : String) (f : IaFields) (g : DbFields) (fo : OcrFields)
    (out : OcrStepOut)
    (hcache : iaEnv.cacheOk = true)
    (hdone : worker_ocr_step ocrEnv msgId3 fo = .done out) :
    (worker_ia_step iaEnv lastId msgId f).deleted = [msgId] ∧
    (worker_db_step dbEnv msgId2 g).deleted = [] ∧
    (worker_db_step dbEnv msgId2 g).newLastId = msgId2 ∧
    (out.caught = false → out.deleted = [msgId3]) ∧
    (out.caught = true → out.deleted = []) := by
  have hocr := worker_ocr_step_done_cases ocrEnv msgId3 fo out hdone
  refine ⟨?_, ?_, ?_, ?_, ?_⟩
  · by_cases hb : optStrTruthy f.ocr_text
    · by_cases hr : (iaEnv.llama (f.ocr_text.getD "")).isEmpty
      · simp [worker_ia_step, hb, hr]
      · simp [worker_ia_step, hb, hr, hcache]
    · simp [worker_ia_step, hb]
  · rcases h : dbEnv.jsonLoads (g.resultado.getD "\x7b\x7d") with _ | data <;>
      simp [worker_db_step, h]
  · rcases h : dbEnv.jsonLoads (g.resultado.getD "\x7b\x7d") with _ | data <;>
      simp [worker_db_step, h]
  · intro hc
    rcases hocr with ⟨ht, _⟩ | ⟨_, hd⟩
    · rw [ht] at hc; cases hc
    · exact hd
  · intro hc
    rcases hocr with ⟨_, hd⟩ | ⟨hf, _⟩
    · exact hd
    · rw [hf] at hc; cases hc

/-- **C9** counterexample: a record whose `user_id` field is not numeric
terminates the OCR worker's read loop — `int(fields.get("user_id", "0"))`
runs before the per-record `try`, refuting that no record content can
terminate a stage worker's read loop. -/
theorem C9_counterexample_bad_user_id_kills_ocr_loop :
    (worker_ocr_iter { jsonLoads := fun _ => some (.vlist []), ocrPhoto := fun _ => some "" }
      (.record "1-0"
        { task_id := some "t", user_id := some "abc", photo_paths := some "[]" })).terminated
      = true := rfl

/-- **C9** as amended: the extraction and persistence workers never let a
read outcome terminate their loops and back off 3 seconds when the read
itself fails, but the OCR worker has no outer handler and parses `user_id`
(`int(...)`) and `photo_paths` (`json.loads`) before its per-record `try`:
a failing read, a record whose `user_id` does not parse as an int, or a
record whose `photo_paths` does not parse as JSON, terminates its loop. -/
theorem C9_amended_loop_resilience (dbEnv : DbEnv) (iaEnv : IaEnv) (ocrEnv : OcrEnv)
    (lastId msgId msgId2 : String) (ro : ReadOutcome DbFields) (ri : ReadOutcome IaFields)
    (fo fo2 : OcrFields) (uid : Int)
    (huid : pyInt? (fo.user_id.getD "0") = none)
    (huid2 : pyInt? (fo2.user_id.getD "0") = some uid)
    (hpaths : ocrEnv.jsonLoads (fo2.photo_paths.getD "[]") = none) :
    (worker_db_iter dbEnv ro).terminated = false ∧
    (worker_ia_iter iaEnv lastId ri).terminated = false ∧
    (worker_db_iter dbEnv .err).sleptSeconds = 3 ∧
    (worker_ia_iter iaEnv lastId .err).sleptSeconds = 3 ∧
    (worker_ocr_iter ocrEnv .err).terminated = true ∧
    (worker_ocr_iter ocrEnv (.record msgId fo)).terminated = true ∧
    (worker_ocr_iter ocrEnv (.record msgId2 fo2)).terminated = true := by
  refine ⟨?_, ?_, rfl, rfl, rfl, ?_, ?_⟩
  · cases ro <;> rfl
  · cases ri <;> rfl
  · have hcrash : worker_ocr_step ocrEnv msgId fo = .crashed := by
      unfold worker_ocr_step
      rw [huid]
    show (match worker_ocr_step ocrEnv msgId fo with
      | OcrStepResult.crashed =>
        ({ terminated := true, sleptSeconds := 0, step := none } : LoopIterOut OcrStepOut)
      | OcrStepResult.done out =>
        { terminated := false, sleptSeconds := 0, step := some out }).terminated = true
    rw [hcrash]
  · have hcrash2 : worker_ocr_step ocrEnv msgId2 fo2 = .crashed := by
      unfold worker_ocr_step
      rw [huid2, hpaths]
    show (match worker_ocr_step ocrEnv msgId2 fo2 with
      | OcrStepResult.crashed =>
        ({ terminated := true, sleptSeconds := 0, step := none } : LoopIterOut OcrStepOut)
      | OcrStepResult.done out =>
        { terminated := false, sleptSeconds := 0, step := some out }).terminated = true
    rw [hcrash2]

/-- Witness for the amended C2 at concrete inputs. -/
theorem C2_amended_witness :
    (worker_ia_step c2IaEnv "0" "1-1"
        { task_id := some "t", user_id := some "u", ocr_text := some "txt" }).deleted = ["1-1"] ∧
    (worker_db_step c2DbEnv "2-2"
        { task_id := some "t2", user_id := some "u2", resultado := some "x" }).deleted = [] ∧
    (worker_db_step c2DbEnv "2-2"
        { task_id := some "t2", user_id := some "u2", resultado := some "x" }).newLastId = "2-2" ∧
    (c2OcrOut.caught = false → c2OcrOut.deleted = ["3-3"]) ∧
    (c2OcrOut.caught = true → c2OcrOut.deleted = []) :=
  C2_amended_per_worker_acknowledgment c2IaEnv c2DbEnv c2OcrEnv "0" "1-1" "2-2" "3-3"
    { task_id := some "t", user_id := some "u", ocr_text := some "txt" }
    { task_id := some "t2", user_id := some "u2", resultado := some "x" }
    c2OcrFields c2OcrOut rfl rfl

/-- Witness for the amended C9 at concrete inputs: one record with a
non-numeric `user_id`, one with a numeric `user_id` but an unparseable
`photo_paths`. -/
theorem C9_amended_witness :
    (worker_db_iter c4Env .empty).terminated = false ∧
    (worker_ia_iter c2IaEnv "0" .empty).terminated = false ∧
    (worker_db_iter c4Env .err).sleptSeconds = 3 ∧
    (worker_ia_iter c2IaEnv "0" .err).sleptSeconds = 3 ∧
    (worker_ocr_iter c9OcrEnv .err).terminated = true ∧
    (worker_ocr_iter c9OcrEnv
      (.record "9-9"
        { task_id := some "t", user_id := some "abc", photo_paths := some "[]" })).terminated
      = true ∧
    (worker_ocr_iter c9OcrEnv
      (.record "9-10"
        { task_id := some "t", user_id := some "7", photo_paths := some "notjson" })).terminated
      = true :=
  C9_amended_loop_resilience c4Env c2IaEnv c9OcrEnv "0" "9-9" "9-10" .empty .empty
    { task_id := some "t", user_id := some "abc", photo_paths := some "[]" }
    { task_id := some "t", user_id := some "7", photo_paths := some "notjson" }
    7 rfl rfl rfl

/-- **C1**: a persistence task whose receipt number is set and whose triple
(store name case-insensitively, receipt number, date) matches an
already-persisted receipt inserts no receipt row and no line rows and emits
exactly the duplicate warning, whose status is `warning` and whose message
carries the store, number and date. -/
theorem C1_duplicate_no_insert_warning (env : DbEnv) (fs : List (String × Value))
    (tid uid : Option String) (items : List Value) (tt : Rat)
    (hconn : env.connectOk = true)
    (hprod : dictGet fs "productos" = some (.vlist items))
    (htot : dbItemsTotal items = some tt)
    (hnum : (dbNumero fs).isTruthy = true)
    (hdup : env.existing.any
      (fun t => dupMatchDb t (dbTienda fs) (dbNumero fs) (dbFecha env fs)) = true) :
    save_ticket_to_db env (.vobj fs) tid uid =
      { responses := [dupWarnMsg tid uid (dbTienda fs) (dbNumero fs) (dbFecha env fs)],
        tickets := [], compras := [], committed := false, caught := false,
        auditWritten := false } ∧
    (dupWarnMsg tid uid (dbTienda fs) (dbNumero fs) (dbFecha env fs)).status = "warning" := by
  have hdp : dbProductos env fs = .vlist items := by
    unfold dbProductos dictGetD
    rw [hprod]
    rfl
  have hpi : pyIterate (dbProductos env fs) = some items := by
    rw [hdp]
    rfl
  refine ⟨?_, rfl⟩
  simp only [save_ticket_to_db, hpi, htot, hconn, hnum, hdup, Bool.not_true, Bool.and_self,
    Bool.false_eq_true, if_false, if_true]

/-- Witness for C1 at concrete inputs: the case differs only in the store
name's case, and the duplicate is still detected. -/
theorem C1_witness :
    save_ticket_to_db c1Env (.vobj c1Fields) (some "t1") (some "u9") =
      { responses := [dupWarnMsg (some "t1") (some "u9") (.vstr "lidl") (.vstr "42")
          (.vstr "2024-04-30")],
        tickets := [], compras := [], committed := false, caught := false,
        auditWritten := false } ∧
    (dupWarnMsg (some "t1") (some "u9") (.vstr "lidl") (.vstr "42")
      (.vstr "2024-04-30")).status = "warning" :=
  C1_duplicate_no_insert_warning c1Env c1Fields (some "t1") (some "u9") [] 0
    rfl rfl rfl rfl rfl

/-- **C4** counterexample: a persistence task whose processing raises before
commit (the datastore connection fails, so the blanket `except` fires and
nothing is committed) emits no ResponseMessage at all — in particular none
with `status=error`. -/
theorem C4_counterexample_no_error_emitted :
    let s := worker_db_step
      { today := "2024-05-01", connectOk := false, existing := [], nextId := 1,
        jsonLoads := fun _ => some (.vobj []), auditOk := true }
      "1-1" { task_id := some "t", user_id := some "u", resultado := some "x" }
    s.saveCaught = true ∧ s.responses = [] ∧ s.tickets = [] :=
  ⟨rfl, rfl, rfl⟩

/-- **C4** as amended: an exception inside `save_ticket_to_db` (for example
the datastore being unreachable) is caught and only logged — no
ResponseMessage is emitted and nothing is committed; the worker emits an
error message only when the task's `resultado` fails JSON decoding, and
that message's status is the capitalised string `"Error"`. -/
theorem C4_amended_silent_db_failure (env : DbEnv) (data : Value) (tid uid : Option String)
    (raw msgId : String)
    (hconn : env.connectOk = false)
    (hjson : env.jsonLoads raw = none) :
    save_ticket_to_db env data tid uid = saveCaughtOut ∧
    worker_db_step env msgId { task_id := tid, user_id := uid, resultado := some raw } =
      { responses := [dbJsonErrMsg tid uid raw], tickets := [], compras := [],
        deleted := [], newLastId := msgId, saveCaught := false } ∧
    (dbJsonErrMsg tid uid raw).status = "Error" := by
  refine ⟨?_, ?_, rfl⟩
  · cases data with
    | vobj fs =>
      rcases h1 : pyIterate (dbProductos env fs) with _ | items <;>
        simp only [save_ticket_to_db, h1]
      rcases h2 : dbItemsTotal items with _ | tt <;> simp only [h2]
      simp [hconn]
    | vnull => rfl
    | vnum q => rfl
    | vstr s => rfl
    | vlist l => rfl
  · unfold worker_db_step
    simp only [Option.getD_some, hjson]

/-- Witness for the amended C4 at concrete inputs. -/
theorem C4_amended_witness :
    save_ticket_to_db c4Env (.vobj [("tienda", .vstr "Dia")]) (some "t") (some "u")
      = saveCaughtOut ∧
    worker_db_step c4Env "4-4"
        { task_id := some "t", user_id := some "u", resultado := some "nope" } =
      { responses := [dbJsonErrMsg (some "t") (some "u") "nope"], tickets := [], compras := [],
        deleted := [], newLastId := "4-4", saveCaught := false } ∧
    (dbJsonErrMsg (some "t") (some "u") "nope").status = "Error" :=
  C4_amended_silent_db_failure c4Env (.vobj [("tienda", .vstr "Dia")]) (some "t") (some "u")
    "nope" "4-4" rfl rfl

/-- **C5** counterexample: the persistence-stage normalizer does not strip
the currency symbol — `parse_float("1,20€")` is 0.0, not 1.20 — so the
spec's example line item normalizes to unit price 0 and line total 0. -/
theorem C5_counterexample_currency_not_stripped :
    parse_float (.vstr "1,20€") = 0 ∧
    dbLineRow (.vstr "2024-05-01") (.vstr "Lidl")
        (.vobj [("producto", .vstr "Leche"), ("precio_unitario", .vstr "1,20€"),
                ("cantidad", .vnull), ("total_linea", .vnum 0)]) =
      some { fecha := .vstr "2024-05-01", tienda := .vstr "Lidl", producto := "Leche",
             producto_normalizado := "leche", categoria_normalizada := "otros",
             cantidad := 1, precio_unitario := 0, total_linea := 0 } ∧
    ((0 : Rat) = 6 / 5 → False) :=
  ⟨rfl, rfl, by decide⟩

/-- **C5** as amended: the normalizer lowercases, strips the unit suffixes
`kg`/`g` and converts comma decimal separators before parsing, but does not
strip currency symbols — a string still containing `€` fails to parse and
defaults to 0.0.  The example item therefore normalizes to quantity 1, unit
price 0.0 and persisted line total 0.0. -/
theorem C5_amended_normalizer :
    parse_float (.vstr "1,20") = 6 / 5 ∧
    parse_float (.vstr "2 kg") = 2 ∧
    parse_float (.vstr "3,5G") = 7 / 2 ∧
    parse_float (.vstr "1,20€") = 0 ∧
    dbLineRow (.vstr "2024-05-01") (.vstr "Lidl")
        (.vobj [("producto", .vstr "Leche"), ("precio_unitario", .vstr "1,20€"),
                ("cantidad", .vnull), ("total_linea", .vnum 0)]) =
      some { fecha := .vstr "2024-05-01", tienda := .vstr "Lidl", producto := "Leche",
             producto_normalizado := "leche", categoria_normalizada := "otros",
             cantidad := 1, precio_unitario := 0, total_linea := 0 } :=
  ⟨rfl, rfl, rfl, rfl, rfl⟩

/-- **C6** counterexample: for an item with quantity 2 at unit price 3 and
no raw `total_linea`, the receipt row and the `ok-todo` message report a
total of 0 (the raw sum, computed before derivation), while the persisted
line rows sum to 6. -/
theorem C6_counterexample_totals_diverge :
    let o := save_ticket_to_db c6Env (.vobj c6Fields) (some "t") (some "u")
    o.tickets.map TicketRow.total_ticket = [0] ∧
    o.responses.map RespMsg.total = [some 0] ∧
    o.compras.map CompraRow.total_linea = [6] ∧
    ((0 : Rat) = 6 → False) :=
  ⟨rfl, rfl, rfl, by decide⟩

/-- **C6** as amended: the receipt row's total and the `ok-todo` message's
total both equal the sum of `parse_float` over the raw `total_linea` fields
(line 78), computed before the per-item derivation — not the sum of the
persisted line totals, which derivation can make larger. -/
theorem C6_amended_total_is_raw_sum (env : DbEnv) (fs : List (String × Value))
    (tid uid : Option String) (items : List Value) (tt : Rat)
    (hconn : env.connectOk = true)
    (hprod : dictGet fs "productos" = some (.vlist items))
    (htot : dbItemsTotal items = some tt)
    (hnodup : ((dbNumero fs).isTruthy &&
      env.existing.any (fun t => dupMatchDb t (dbTienda fs) (dbNumero fs) (dbFecha env fs)))
      = false) :
    save_ticket_to_db env (.vobj fs) tid uid =
      { responses := [okTodoMsg tid uid (dbTienda fs) (dbFecha env fs) tt items.length],
        tickets := [{ id := env.nextId, fecha := dbFecha env fs, tienda := dbTienda fs,
                      total_ticket := tt, numero_ticket := dbNumero fs }],
        compras := items.filterMap (dbLineRow (dbFecha env fs) (dbTienda fs)),
        committed := true, caught := !env.auditOk, auditWritten := env.auditOk } := by
  have hdp : dbProductos env fs = .vlist items := by
    unfold dbProductos dictGetD
    rw [hprod]
    rfl
  have hpi : pyIterate (dbProductos env fs) = some items := by
    rw [hdp]
    rfl
  simp only [save_ticket_to_db, hpi, htot, hconn, hnodup, Bool.not_true, Bool.false_eq_true,
    if_false]

/-- Witness for the amended C6 at concrete inputs: raw sum 0 in the ticket
row and the message, derived total 6 in the line row. -/
theorem C6_amended_witness :
    save_ticket_to_db c6Env (.vobj c6Fields) (some "t6") (some "u6") =
      { responses := [okTodoMsg (some "t6") (some "u6") (.vstr "Desconocida")
          (.vstr "2024-05-01") 0 1],
        tickets := [{ id := 5, fecha := .vstr "2024-05-01", tienda := .vstr "Desconocida",
                      total_ticket := 0, numero_ticket := .vnull }],
        compras := [{ fecha := .vstr "2024-05-01", tienda := .vstr "Desconocida",
                      producto := "pan", producto_normalizado := "pan",
                      categoria_normalizada := "otros", cantidad := 2, precio_unitario := 3,
                      total_linea := 6 }],
        committed := true, caught := false, auditWritten := true } :=
  C6_amended_total_is_raw_sum c6Env c6Fields (some "t6") (some "u6") [c6Item] 0
    rfl rfl rfl rfl

/-- **C7** counterexample: an item with no raw `total_linea` (normalizing
to 0) and unit price 0.5625 > 0 is persisted by the persistence worker with
line total 0.5625 = 9/16, not `round(1 × 0.5625, 2)` = 0.56 = 14/25. -/
theorem C7_counterexample_no_rounding :
    parse_float (dictGetD [("producto", Value.vstr "x"), ("cantidad", Value.vnull),
        ("precio_unitario", Value.vstr "0.5625"), ("total_linea", Value.vnull)]
        "total_linea" .vnull) = 0 ∧
    (0 : Rat) < parse_float (.vstr "0.5625") ∧
    (dbLineRow .vnull (.vstr "T")
        (.vobj [("producto", .vstr "x"), ("cantidad", .vnull),
                ("precio_unitario", .vstr "0.5625"), ("total_linea", .vnull)])).map
      CompraRow.total_linea = some (9 / 16) ∧
    pyRound2 (1 * (9 / 16)) = 14 / 25 ∧
    ((9 : Rat) / 16 = 14 / 25 → False) :=
  ⟨rfl, by decide, by decide, by decide, by decide⟩

/-- **C7** as amended: in the persistence worker the derivation triggers on
a falsy raw `total_linea` field and stores `quantity × unit_price` exactly,
without rounding; the `round(quantity × unit_price, 2)` derivation under
the condition (normalized total 0, positive unit price) exists only in the
monolithic bot path's `save_ticket_to_db`. -/
theorem C7_amended_derivation (fecha tienda : Value)
    (fs gs : List (String × Value)) (prod cat prod2 cat2 : String)
    (hp : pyOr (dictGetD fs "producto" .vnull) (.vstr "") = .vstr prod)
    (hc : pyOr (dictGetD fs "categoria" .vnull) (.vstr "otros") = .vstr cat)
    (hfalsy : (dictGetD fs "total_linea" .vnull).isTruthy = false)
    (hp2 : pyOr (dictGetD gs "producto" .vnull) (.vstr "") = .vstr prod2)
    (hc2 : pyOr (dictGetD gs "categoria" .vnull) (.vstr "otros") = .vstr cat2)
    (ht0 : limpiar_numero (dictGetD gs "total_linea" .vnull) = 0)
    (hpu : 0 < limpiar_numero (dictGetD gs "precio_unitario" .vnull)) :
    (dbLineRow fecha tienda (.vobj fs)).isSome = true ∧
    (∀ r, dbLineRow fecha tienda (.vobj fs) = some r →
      r.total_linea = r.cantidad * r.precio_unitario) ∧
    (botLineRow fecha tienda (.vobj gs)).isSome = true ∧
    (∀ r, botLineRow fecha tienda (.vobj gs) = some r →
      r.total_linea = pyRound2 (r.cantidad * r.precio_unitario)) := by
  refine ⟨?_, ?_, ?_, ?_⟩
  · simp only [dbLineRow]
    rw [hp, hc]
    rfl
  · intro r hr
    simp only [dbLineRow] at hr
    rw [hp, hc] at hr
    simp only [Option.some.injEq] at hr
    subst hr
    simp only [pyOr, hfalsy, Bool.false_eq_true, if_false, parse_float]
  · simp only [botLineRow]
    rw [hp2, hc2]
    rfl
  · intro r hr
    simp only [botLineRow] at hr
    rw [hp2, hc2] at hr
    have hr2 := Option.some.inj hr
    subst hr2
    rw [if_pos (⟨ht0, hpu⟩ :
      limpiar_numero (dictGetD gs "total_linea" .vnull) = 0 ∧
      limpiar_numero (dictGetD gs "precio_unitario" .vnull) > 0)]

/-- Witness for the amended C7 at concrete items. -/
theorem C7_amended_witness :
    (dbLineRow (.vstr "2024-05-01") (.vstr "Dia") (.vobj c7DbItem)).isSome = true ∧
    (∀ r, dbLineRow (.vstr "2024-05-01") (.vstr "Dia") (.vobj c7DbItem) = some r →
      r.total_linea = r.cantidad * r.precio_unitario) ∧
    (botLineRow (.vstr "2024-05-01") (.vstr "Dia") (.vobj c7BotItem)).isSome = true ∧
    (∀ r, botLineRow (.vstr "2024-05-01") (.vstr "Dia") (.vobj c7BotItem) = some r →
      r.total_linea = pyRound2 (r.cantidad * r.precio_unitario)) :=
  C7_amended_derivation (.vstr "2024-05-01") (.vstr "Dia") c7DbItem c7BotItem
    "x" "otros" "y" "otros" rfl rfl rfl rfl rfl rfl (by decide)

/-- **C3** counterexample: a completed two-photo burst runs the inline
pipeline once but appends nothing to the `ocr_tasks` stream — `bot.py`
enqueues no Task at all, refuting "enqueues exactly one Task onto the OCR
stream". -/
theorem C3_counterexample_no_ocr_task :
    let r := bot_run c3Env initBotState [.photo "a", .photo "b", .timerFire 1]
    r.2.ocrEnqueued = [] ∧ r.2.pipelineRuns = [["a", "b"]] ∧ r.1.photos = [] :=
  ⟨rfl, rfl, rfl⟩

/-- **C3** as amended: for an uninterrupted burst whose inline pipeline run
completes, the debounced intake runs the pipeline exactly once with the
full photo sequence in submission order, clears the session's sequence and
leaves no timer pending — and no Task is ever enqueued on the OCR stream,
because the pipeline runs inline in the bot process. -/
theorem C3_amended_one_inline_run (env : BotEnv) (b : List String)
    (hb : b ≠ [])
    (hclear : (process_ticket_photos env b).1 = []) :
    (bot_run env initBotState (b.map .photo ++ [.timerFire (b.length - 1)])).2.pipelineRuns
      = [b] ∧
    (bot_run env initBotState (b.map .photo ++ [.timerFire (b.length - 1)])).2.ocrEnqueued
      = [] ∧
    (bot_run env initBotState (b.map .photo ++ [.timerFire (b.length - 1)])).1.photos = [] ∧
    (bot_run env initBotState (b.map .photo ++ [.timerFire (b.length - 1)])).1.timer = none := by
  obtain ⟨x, xs, rfl⟩ : ∃ x xs, b = x :: xs := by
    cases b with
    | nil => exact absurd rfl hb
    | cons x xs => exact ⟨x, xs, rfl⟩
  have hmid : (bot_run env initBotState ((x :: xs).map .photo)).1 =
      { photos := x :: xs, timer := some xs.length, nextGen := xs.length + 1 } := by
    rw [(bot_run_photos env initBotState (x :: xs)).1]
    simp [initBotState]
  have happ := bot_run_append env initBotState ((x :: xs).map .photo)
    [.timerFire ((x :: xs).length - 1)]
  have htail : bot_run env
      { photos := x :: xs, timer := some xs.length, nextGen := xs.length + 1 }
      [.timerFire ((x :: xs).length - 1)] =
      (({ photos := (process_ticket_photos env (x :: xs)).1, timer := none,
          nextGen := xs.length + 1 } : BotState),
        (process_ticket_photos env (x :: xs)).2.append noEffects) := by
    show ((timer_fire env _ ((x :: xs).length - 1)).1,
      (timer_fire env _ ((x :: xs).length - 1)).2.append noEffects) = _
    unfold timer_fire
    simp
  have hpr : (bot_run env initBotState
      (BotEvent.photo x :: List.map BotEvent.photo xs)).2.pipelineRuns = [] :=
    (bot_run_photos env initBotState (x :: xs)).2
  refine ⟨?_, bot_run_no_ocrEnqueued env initBotState _, ?_, ?_⟩
  · rw [happ, hmid, htail]
    simp [BotEffects.append, hpr, process_nonempty_pipelineRuns env (x :: xs) (by simp),
      noEffects]
  · rw [happ, hmid, htail]
    exact hclear
  · rw [happ, hmid, htail]

/-- Witness for the amended C3 at a concrete two-photo burst. -/
theorem C3_amended_witness :
    (bot_run c3Env initBotState (["w1", "w2"].map .photo
      ++ [.timerFire (["w1", "w2"].length - 1)])).2.pipelineRuns = [["w1", "w2"]] ∧
    (bot_run c3Env initBotState (["w1", "w2"].map .photo
      ++ [.timerFire (["w1", "w2"].length - 1)])).2.ocrEnqueued = [] ∧
    (bot_run c3Env initBotState (["w1", "w2"].map .photo
      ++ [.timerFire (["w1", "w2"].length - 1)])).1.photos = [] ∧
    (bot_run c3Env initBotState (["w1", "w2"].map .photo
      ++ [.timerFire (["w1", "w2"].length - 1)])).1.timer = none :=
  C3_amended_one_inline_run c3Env ["w1", "w2"] (by simp) rfl

/-- **C8** counterexample: after photo-then-cancel the pending debounce
timer is still armed (not cancelled), and when it later fires the user
receives the "no photos detected" notice — an observable effect the claim
rules out.  (No pipeline run and no stream task happen, as the claim
says.) -/
theorem C8_counterexample_timer_survives_cancel :
    (bot_run c3Env initBotState [.photo "p", .cancel]).1.timer = some 0 ∧
    (bot_run c3Env initBotState [.photo "p", .cancel, .timerFire 0]).2.replies =
      ["📸 Foto 1 recibida. Esperando más...",
       "❌ Ticket cancelado. Puedes empezar uno nuevo enviando una foto.",
       "⚠️ No se detectaron fotos."] ∧
    (bot_run c3Env initBotState [.photo "p", .cancel, .timerFire 0]).2.pipelineRuns = [] :=
  ⟨rfl, rfl, rfl⟩

/-- **C8** as amended: a cancel command clears the session's photo sequence
and prevents any pipeline run and any stream task for that burst, but it
does not cancel the pending debounce timer: when that timer expires it
finds the empty sequence and sends the "no photos detected" notice. -/
theorem C8_amended_cancel_clears_but_timer_fires (env : BotEnv) (b : List String)
    (hb : b ≠ []) :
    (bot_run env initBotState (b.map .photo ++ [.cancel, .timerFire (b.length - 1)])).1.photos
      = [] ∧
    (bot_run env initBotState
      (b.map .photo ++ [.cancel, .timerFire (b.length - 1)])).2.pipelineRuns = [] ∧
    (bot_run env initBotState
      (b.map .photo ++ [.cancel, .timerFire (b.length - 1)])).2.ocrEnqueued = [] ∧
    "⚠️ No se detectaron fotos." ∈
      (bot_run env initBotState (b.map .photo ++ [.cancel, .timerFire (b.length - 1)])).2.replies
      := by
  obtain ⟨x, xs, rfl⟩ : ∃ x xs, b = x :: xs := by
    cases b with
    | nil => exact absurd rfl hb
    | cons x xs => exact ⟨x, xs, rfl⟩
  have hmid : (bot_run env initBotState ((x :: xs).map .photo)).1 =
      { photos := x :: xs, timer := some xs.length, nextGen := xs.length + 1 } := by
    rw [(bot_run_photos env initBotState (x :: xs)).1]
    simp [initBotState]
  have happ := bot_run_append env initBotState ((x :: xs).map .photo)
    [.cancel, .timerFire ((x :: xs).length - 1)]
  have htail : bot_run env
      { photos := x :: xs, timer := some xs.length, nextGen := xs.length + 1 }
      [.cancel, .timerFire ((x :: xs).length - 1)] =
      (({ photos := [], timer := none, nextGen := xs.length + 1 } : BotState),
        { replies := ["❌ Ticket cancelado. Puedes empezar uno nuevo enviando una foto.",
            "⚠️ No se detectaron fotos."],
          ocrEnqueued := [], pipelineRuns := [], filesRemoved := [] }) := by
    simp [bot_run, bot_step, cancel_ticket, timer_fire, process_ticket_photos,
      BotEffects.append, noEffects]
  have hpr : (bot_run env initBotState
      (BotEvent.photo x :: List.map BotEvent.photo xs)).2.pipelineRuns = [] :=
    (bot_run_photos env initBotState (x :: xs)).2
  refine ⟨?_, ?_, bot_run_no_ocrEnqueued env initBotState _, ?_⟩
  · rw [happ, hmid, htail]
  · rw [happ, hmid, htail]
    simp [BotEffects.append, hpr]
  · rw [happ, hmid, htail]
    simp [BotEffects.append]

/-- Witness for the amended C8 at a concrete one-photo burst. -/
theorem C8_amended_witness :
    (bot_run c3Env initBotState (["q"].map .photo
      ++ [.cancel, .timerFire (["q"].length - 1)])).1.photos = [] ∧
    (bot_run c3Env initBotState (["q"].map .photo
      ++ [.cancel, .timerFire (["q"].length - 1)])).2.pipelineRuns = [] ∧
    (bot_run c3Env initBotState (["q"].map .photo
      ++ [.cancel, .timerFire (["q"].length - 1)])).2.ocrEnqueued = [] ∧
    "⚠️ No se detectaron fotos." ∈
      (bot_run c3Env initBotState (["q"].map .photo
        ++ [.cancel, .timerFire (["q"].length - 1)])).2.replies :=
  C8_amended_cancel_clears_but_timer_fires c3Env ["q"] (by simp)

end MonitorPrecios
